import Mathlib

/-
  Verification development for the `nest` flight-CLI repository.

  Shallow embedding of:
    - src/config/settings.py   (the frozen dataclasses)
    - src/core/runner.py       (`_safe_asdict`, `_write_settings_snapshot`, `run`)
    - src/config/__init__.py   (`load_settings_from_env`)
    - src/cli/main.py          (`_parse_extras`, `parse_args`)

  The external collaborators (DroneConnection, DroneLogs, SwarmCommand,
  DetectorRT, Thread, Command) are not part of this repository; `run` only
  calls their constructors and close/stop/join/run entry points.  They are
  modelled by an environment `ExtEnv` of booleans saying, for each external
  call, whether that call returns normally (`true`) or raises (`false`),
  plus `threadAlive` for the `detector_thread.is_alive()` probe.  `run` is
  embedded as a pure function from the settings, the environment and a
  filesystem state to a result record carrying the returned value (or the
  escaped exception), the ordered trace of external calls, and the final
  filesystem.  The text serialization of the json module is external library
  code and is modelled at the structured-value level: file contents are
  Json values, so "parsed back" means reading the structured value back.
-/

/-- A filesystem path, as its ordered list of segments (pathlib.Path). -/
structure FsPath where
  parts : List String
deriving DecidableEq

/-- Rendering of a path to text, modelling Python `str(path)`. -/
def pathStr (p : FsPath) : String :=
  String.intercalate "/" p.parts

/-- Splitting a character list at a separator (the empty list gives one
empty segment, like `str.split`). -/
def splitOnChar (sep : Char) : List Char → List (List Char)
  | [] => [[]]
  | c :: t =>
    match splitOnChar sep t with
    | [] => [[c]]
    | h :: r => if c == sep then [] :: h :: r else (c :: h) :: r

/-- Building a path from text, modelling `pathlib.Path(s)`. -/
def pathOfStr (s : String) : FsPath :=
  ⟨(splitOnChar '/' s.data).map (fun cs => String.mk cs)⟩

/-- Structured JSON values, the shape `json.dumps` serializes.  Python ints
and floats are kept distinct, as `json` round-trips each exactly. -/
inductive Json where
  | null
  | bool (b : Bool)
  | int (n : Int)
  | float (q : Rat)
  | str (s : String)
  | arr (xs : List Json)
  | obj (fields : List (String × Json))

/-- RunSettings dataclass from src/config/settings.py. -/
structure RunSettings where
  project_root : FsPath
  logs_dir : FsPath
  data_dir : FsPath
  cache_dir : FsPath
  log_level : String
deriving DecidableEq

/-- RadioSettings dataclass: the channel-to-URI map, as an ordered dict. -/
structure RadioSettings where
  uri_by_channel : List (String × String)
deriving DecidableEq

/-- SwarmSettings dataclass from src/config/settings.py. -/
structure SwarmSettings where
  enabled : Bool
  channels : Option (List String)
deriving DecidableEq

/-- VisionSettings dataclass from src/config/settings.py.  The Python float
`marker_size_m` is modelled as a rational. -/
structure VisionSettings where
  enabled : Bool
  control_enabled : Bool
  camera_index : Option Int
  camera_url : Option String
  aruco_dict_name : String
  marker_size_m : Rat
  show_window : Bool
deriving DecidableEq

/-- FeatureFlags dataclass from src/config/settings.py. -/
structure FeatureFlags where
  waypoints : Bool
deriving DecidableEq

/-- Settings dataclass from src/config/settings.py, field order preserved. -/
structure Settings where
  mode : String
  dry_run : Bool
  run : RunSettings
  radio : RadioSettings
  swarm : SwarmSettings
  vision : VisionSettings
  features : FeatureFlags
  uri : Option String
deriving DecidableEq

/-- Helper for `_safe_asdict`: an optional string becomes null or a string. -/
def optStrJson : Option String → Json
  | none => Json.null
  | some s => Json.str s

/-- Helper for `_safe_asdict`: an optional int becomes null or a number. -/
def optIntJson : Option Int → Json
  | none => Json.null
  | some n => Json.int n

/-- Helper for `_safe_asdict`: an optional string list becomes null or an
array of strings. -/
def optStrListJson : Option (List String) → Json
  | none => Json.null
  | some l => Json.arr (l.map Json.str)

/-- Embedding of `_safe_asdict` (src/core/runner.py lines 15-32) applied at
the `Settings` dataclass: `dataclasses.asdict` flattens the nested
dataclasses into dicts in field order, lists recurse, `Path` values become
`str(path)`, and scalars pass through. -/
def safeAsdict (s : Settings) : Json :=
  Json.obj
    [ ("mode", Json.str s.mode)
    , ("dry_run", Json.bool s.dry_run)
    , ("run", Json.obj
        [ ("project_root", Json.str (pathStr s.run.project_root))
        , ("logs_dir", Json.str (pathStr s.run.logs_dir))
        , ("data_dir", Json.str (pathStr s.run.data_dir))
        , ("cache_dir", Json.str (pathStr s.run.cache_dir))
        , ("log_level", Json.str s.run.log_level) ])
    , ("radio", Json.obj
        [ ("uri_by_channel",
            Json.obj (s.radio.uri_by_channel.map (fun kv => (kv.1, Json.str kv.2)))) ])
    , ("swarm", Json.obj
        [ ("enabled", Json.bool s.swarm.enabled)
        , ("channels", optStrListJson s.swarm.channels) ])
    , ("vision", Json.obj
        [ ("enabled", Json.bool s.vision.enabled)
        , ("control_enabled", Json.bool s.vision.control_enabled)
        , ("camera_index", optIntJson s.vision.camera_index)
        , ("camera_url", optStrJson s.vision.camera_url)
        , ("aruco_dict_name", Json.str s.vision.aruco_dict_name)
        , ("marker_size_m", Json.float s.vision.marker_size_m)
        , ("show_window", Json.bool s.vision.show_window) ])
    , ("features", Json.obj [ ("waypoints", Json.bool s.features.waypoints) ])
    , ("uri", optStrJson s.uri) ]

/-- What the snapshot determines: every field of the settings, with
filesystem paths rendered as text (spec 4.1 / 8). -/
structure RunSettingsDump where
  project_root : String
  logs_dir : String
  data_dir : String
  cache_dir : String
  log_level : String
deriving DecidableEq

/-- The full settings value with path fields rendered as strings. -/
structure SettingsDump where
  mode : String
  dry_run : Bool
  run : RunSettingsDump
  radio : RadioSettings
  swarm : SwarmSettings
  vision : VisionSettings
  features : FeatureFlags
  uri : Option String
deriving DecidableEq

/-- Path fields of a settings value rendered as strings. -/
def dumpOf (s : Settings) : SettingsDump :=
  ⟨ s.mode, s.dry_run
  , ⟨ pathStr s.run.project_root, pathStr s.run.logs_dir
    , pathStr s.run.data_dir, pathStr s.run.cache_dir, s.run.log_level ⟩
  , s.radio, s.swarm, s.vision, s.features, s.uri ⟩

/-- Decoder for a null-or-string JSON value. -/
def decOptStr : Json → Option (Option String)
  | Json.null => some none
  | Json.str s => some (some s)
  | _ => none

/-- Decoder for a null-or-int JSON value. -/
def decOptInt : Json → Option (Option Int)
  | Json.null => some none
  | Json.int n => some (some n)
  | _ => none

/-- Decoder for a JSON array of strings. -/
def decStrList : List Json → Option (List String)
  | [] => some []
  | Json.str s :: rest => (decStrList rest).map (fun l => s :: l)
  | _ => none

/-- Decoder for a null-or-string-array JSON value. -/
def decOptStrList : Json → Option (Option (List String))
  | Json.null => some none
  | Json.arr xs => (decStrList xs).map some
  | _ => none

/-- Decoder for a JSON object whose values are all strings. -/
def decStrPairs : List (String × Json) → Option (List (String × String))
  | [] => some []
  | (k, Json.str v) :: rest => (decStrPairs rest).map (fun l => (k, v) :: l)
  | _ => none

/-- Decoder for the `run` section of the snapshot. -/
def decRunDump : Json → Option RunSettingsDump
  | Json.obj [(k1, Json.str pr), (k2, Json.str ld), (k3, Json.str dd),
              (k4, Json.str cd), (k5, Json.str ll)] =>
    if k1 = "project_root" ∧ k2 = "logs_dir" ∧ k3 = "data_dir"
        ∧ k4 = "cache_dir" ∧ k5 = "log_level"
    then some ⟨pr, ld, dd, cd, ll⟩ else none
  | _ => none

/-- Decoder for the `radio` section of the snapshot. -/
def decRadio : Json → Option RadioSettings
  | Json.obj [(k1, Json.obj ub)] =>
    if k1 = "uri_by_channel" then (decStrPairs ub).map (fun l => ⟨l⟩) else none
  | _ => none

/-- Decoder for the `swarm` section of the snapshot. -/
def decSwarm : Json → Option SwarmSettings
  | Json.obj [(k1, Json.bool se), (k2, ch)] =>
    if k1 = "enabled" ∧ k2 = "channels"
    then (decOptStrList ch).map (fun c => ⟨se, c⟩) else none
  | _ => none

/-- Decoder for the `vision` section of the snapshot. -/
def decVision : Json → Option VisionSettings
  | Json.obj [(k1, Json.bool ve), (k2, Json.bool ce), (k3, ci), (k4, cu),
              (k5, Json.str adn), (k6, Json.float ms), (k7, Json.bool sw)] =>
    if k1 = "enabled" ∧ k2 = "control_enabled" ∧ k3 = "camera_index"
        ∧ k4 = "camera_url" ∧ k5 = "aruco_dict_name" ∧ k6 = "marker_size_m"
        ∧ k7 = "show_window"
    then do
      let ci2 ← decOptInt ci
      let cu2 ← decOptStr cu
      some ⟨ve, ce, ci2, cu2, adn, ms, sw⟩
    else none
  | _ => none

/-- Decoder for the `features` section of the snapshot. -/
def decFeatures : Json → Option FeatureFlags
  | Json.obj [(k1, Json.bool wp)] =>
    if k1 = "waypoints" then some ⟨wp⟩ else none
  | _ => none

/-- Parse the snapshot JSON back into the settings-with-paths-as-text shape,
checking every field name written by `_safe_asdict`. -/
def decodeDump : Json → Option SettingsDump
  | Json.obj [(k1, Json.str mode), (k2, Json.bool dry), (k3, rn), (k4, rd),
              (k5, sw), (k6, vs), (k7, ft), (k8, u)] =>
    if k1 = "mode" ∧ k2 = "dry_run" ∧ k3 = "run" ∧ k4 = "radio" ∧ k5 = "swarm"
        ∧ k6 = "vision" ∧ k7 = "features" ∧ k8 = "uri"
    then do
      let rn2 ← decRunDump rn
      let rd2 ← decRadio rd
      let sw2 ← decSwarm sw
      let vs2 ← decVision vs
      let ft2 ← decFeatures ft
      let u2 ← decOptStr u
      some ⟨mode, dry, rn2, rd2, sw2, vs2, ft2, u2⟩
    else none
  | _ => none

/-- Filesystem state: the set of directories known to exist and the files,
keyed by path segments, holding structured snapshot content. -/
structure FS where
  dirs : List (List String)
  files : List (List String × Json)

/-- Modelling `out_dir.mkdir(parents=True, exist_ok=True)`: the directory
and each of its ancestors exists afterwards. -/
def mkdirParents (p : FsPath) (fs : FS) : FS :=
  ⟨((List.range p.parts.length).map (fun n => p.parts.take (n + 1))) ++ fs.dirs, fs.files⟩

/-- Modelling `path.write_text(...)`: create or overwrite the file. -/
def writeFile (path : List String) (j : Json) (fs : FS) : FS :=
  ⟨fs.dirs, (path, j) :: fs.files.filter (fun e => !(e.1 == path))⟩

/-- Read a file back from the filesystem state. -/
def FS.read (fs : FS) (path : List String) : Option Json :=
  (fs.files.find? (fun e => e.1 == path)).map (fun e => e.2)

/-- Embedding of `_write_settings_snapshot` (src/core/runner.py lines
34-37): ensure the directory exists, then write `settings.json` there. -/
def writeSettingsSnapshot (s : Settings) (out_dir : FsPath) (fs : FS) : FS :=
  let fs1 := mkdirParents out_dir fs
  writeFile (out_dir.parts ++ ["settings.json"]) (safeAsdict s) fs1

/-- The path of the snapshot file: `settings.json` inside the logs directory. -/
def snapPath (s : Settings) : List String :=
  s.run.logs_dir.parts ++ ["settings.json"]

/-- Outcomes of the external calls `run` makes: for each call, whether it
returns normally (`true`) or raises an exception (`false`);  `threadAlive`
is the result of `detector_thread.is_alive()` during teardown. -/
structure ExtEnv where
  snapshotOk : Bool
  connOk : Bool
  logsOk : Bool
  swarmOk : Bool
  detOk : Bool
  startOk : Bool
  cmdOk : Bool
  setDetOk : Bool
  runOk : Bool
  stopOk : Bool
  threadAlive : Bool
  joinOk : Bool
  swarmCloseOk : Bool
  logsCloseOk : Bool
  droneCloseOk : Bool
deriving DecidableEq

/-- Presence of the optional handles of `run` (the variables initialized to
`None` at src/core/runner.py lines 61-65). -/
structure Handles where
  drone : Bool
  droneLogs : Bool
  swarm : Bool
  detector : Bool
  detectorThread : Bool
deriving DecidableEq

/-- Observable external calls of one `run` invocation, in program order. -/
inductive Ev where
  | snapshotEv
  | connC
  | logsC
  | swarmC
  | detC
  | threadStart
  | cmdC
  | setDet
  | loopRun
  | stopCall
  | joinCall
  | swarmClose
  | logsClose
  | droneClose
deriving DecidableEq

/-- Tail of the initialization phase from `Command(...)` on
(src/core/runner.py lines 103-120): construct the loop controller, register
a started detector with it, then enter the blocking loop.  The `loopRun`
event records that `cmd.run()` was called, whether or not it raises. -/
def initCmd (env : ExtEnv) (h : Handles) (t : List Ev) : Handles × List Ev × Bool :=
  if !env.cmdOk then (h, t, false) else
  let t1 := t ++ [Ev.cmdC]
  if h.detector then
    if !env.setDetOk then (h, t1, false) else
    let t2 := t1 ++ [Ev.setDet]
    if !env.runOk then (h, t2 ++ [Ev.loopRun], false) else (h, t2 ++ [Ev.loopRun], true)
  else
    if !env.runOk then (h, t1 ++ [Ev.loopRun], false) else (h, t1 ++ [Ev.loopRun], true)

/-- Vision step of initialization (src/core/runner.py lines 85-99): if
vision is enabled, construct `DetectorRT`, wrap it in a `Thread` (which also
yields the thread handle) and start the thread. -/
def initVision (s : Settings) (env : ExtEnv) (h : Handles) (t : List Ev) :
    Handles × List Ev × Bool :=
  if s.vision.enabled then
    if !env.detOk then (h, t, false) else
    let h1 : Handles := ⟨h.drone, h.droneLogs, h.swarm, true, true⟩
    if !env.startOk then (h1, t ++ [Ev.detC], false) else
    initCmd env h1 (t ++ [Ev.detC, Ev.threadStart])
  else initCmd env h t

/-- The body of the try block of `run` (src/core/runner.py lines 67-120):
connection, log reader, conditional swarm controller, conditional vision,
loop controller, blocking loop.  Returns the handles assigned so far, the
trace of completed external calls, and whether the block completed without
an exception. -/
def initPhase (s : Settings) (env : ExtEnv) : Handles × List Ev × Bool :=
  if !env.connOk then (⟨false, false, false, false, false⟩, [], false) else
  let h1 : Handles := ⟨true, false, false, false, false⟩
  if !env.logsOk then (h1, [Ev.connC], false) else
  let h2 : Handles := ⟨true, true, false, false, false⟩
  if s.mode == "swarm" then
    if !env.swarmOk then (h2, [Ev.connC, Ev.logsC], false) else
    let h3 : Handles := ⟨true, true, true, false, false⟩
    initVision s env h3 [Ev.connC, Ev.logsC, Ev.swarmC]
  else initVision s env h2 [Ev.connC, Ev.logsC]

/-- Vision part of the finally block (src/core/runner.py lines 130-136):
one try wraps both `detector.stop()` and the conditional
`detector_thread.join(timeout=2.0)`, so a raising stop skips the join. -/
def visionShutdown (h : Handles) (env : ExtEnv) : List Ev :=
  if h.detector then
    if env.stopOk then
      Ev.stopCall :: (if h.detectorThread && env.threadAlive then [Ev.joinCall] else [])
    else [Ev.stopCall]
  else if h.detectorThread && env.threadAlive then [Ev.joinCall] else []

/-- The finally block of `run` (src/core/runner.py lines 126-156): the
vision block, then three further independently wrapped close calls, each
silently skipped when its handle is absent.  An exception inside any of the
four try blocks is caught and logged there, so later blocks still run. -/
def teardownPhase (h : Handles) (env : ExtEnv) : List Ev :=
  visionShutdown h env
    ++ (if h.swarm then [Ev.swarmClose] else [])
    ++ (if h.droneLogs then [Ev.logsClose] else [])
    ++ (if h.drone then [Ev.droneClose] else [])

/-- Result of one `run` invocation: the value returned by the function (or
`Except.error` when an exception escaped it), the ordered trace of external
calls, and the final filesystem state. -/
structure RunOut where
  ret : Except Unit Nat
  trace : List Ev
  fs : FS

/-- Embedding of `run` (src/core/runner.py lines 39-156).  The snapshot
write happens before the try block, so its failure escapes `run`; dry-run
returns 0 before any subsystem is touched; otherwise the try body runs, an
exception in it is converted to the return value 1, and the teardown trace
of the finally block is appended on every non-dry path. -/
def run (s : Settings) (env : ExtEnv) (fs0 : FS) : RunOut :=
  if !env.snapshotOk then ⟨Except.error (), [], fs0⟩ else
  let fs1 := writeSettingsSnapshot s s.run.logs_dir fs0
  if s.dry_run then ⟨Except.ok 0, [Ev.snapshotEv], fs1⟩ else
  match initPhase s env with
  | (h, itr, ok) =>
    ⟨Except.ok (if ok then 0 else 1), Ev.snapshotEv :: (itr ++ teardownPhase h env), fs1⟩

/-- Lookup of an environment variable with a default, modelling
`os.getenv(key, default)` over an environment `env`. -/
def getenvD (env : String → Option String) (k d : String) : String :=
  (env k).getD d

/-- Modelling Python `str.strip()`: drop whitespace from both ends. -/
def pyStrip (s : String) : String :=
  ⟨((s.data.dropWhile Char.isWhitespace).reverse.dropWhile Char.isWhitespace).reverse⟩

/-- Modelling Python `str.lower()` (ASCII case folding suffices here). -/
def pyLower (s : String) : String :=
  ⟨s.data.map Char.toLower⟩

/-- Modelling Python `str.upper()` (ASCII case folding suffices here). -/
def pyUpper (s : String) : String :=
  ⟨s.data.map Char.toUpper⟩

/-- Digits of a decimal literal to a number; empty or non-digit input is a
parse failure. -/
def digitsToNat? (l : List Char) : Option Nat :=
  if l.isEmpty then none
  else l.foldl
    (fun acc c => acc.bind (fun n => if c.isDigit then some (n * 10 + (c.toNat - 48)) else none))
    (some 0)

/-- Simplified model of Python `float(s)` for plain decimal literals (an
optional sign, digits, optionally a dot and digits); exotic forms such as
exponents are out of scope of the claims and map to `none` (a raise). -/
def pyFloat? (s : String) : Option Rat :=
  let t := (pyStrip s).data
  let sign : Rat := match t with
    | '-' :: _ => -1
    | _ => 1
  let u := match t with
    | '-' :: rest => rest
    | '+' :: rest => rest
    | l => l
  match splitOnChar '.' u with
  | [a] => (digitsToNat? a).map (fun n => sign * (n : Rat))
  | [a, b] =>
    match digitsToNat? a, digitsToNat? b with
    | some na, some nb =>
      some (sign * ((na : Rat) + (nb : Rat) / ((10 : Rat) ^ b.length)))
    | _, _ => none
  | _ => none

/-- Model of Python `int(s)` on a stripped string: an optional sign and
digits; `none` means the call raises ValueError. -/
def pyInt? (s : String) : Option Int :=
  match s.data with
  | '-' :: rest => (digitsToNat? rest).map (fun n => -(n : Int))
  | '+' :: rest => (digitsToNat? rest).map (fun n => (n : Int))
  | l => (digitsToNat? l).map (fun n => (n : Int))

/-- The `uri_by_channel` table built from the environment
(src/config/__init__.py lines 52-56). -/
def uriByChannelOf (env : String → Option String) : List (String × String) :=
  [ ("7", pyStrip (getenvD env "RADIO_CHANNEL_7" ""))
  , ("8", pyStrip (getenvD env "RADIO_CHANNEL_8" ""))
  , ("9", pyStrip (getenvD env "RADIO_CHANNEL_9" "")) ]

/-- The URI a radio channel key resolves to: `uri_by_channel.get(ch, "")`
followed by `strip()` (src/config/__init__.py line 95-96). -/
def radioUri (env : String → Option String) (ch : String) : String :=
  pyStrip (((uriByChannelOf env).lookup ch).getD "")

/-- The camera-index resolution of `load_settings_from_env` (lines 74-75):
`int(cam_index_env) if cam_index_env else None`, where a bad literal
raises ValueError. -/
def camIndexStep (env : String → Option String) : Except String (Option Int) :=
  let cam_index_env := pyStrip (getenvD env "NEST_CAMERA_INDEX" "")
  if cam_index_env == "" then Except.ok none else
  match pyInt? cam_index_env with
  | some i => Except.ok (some i)
  | none => Except.error ("invalid literal for int: " ++ cam_index_env)

/-- The marker-size resolution (line 84): `float(...)` may raise. -/
def markerStep (env : String → Option String) : Except String Rat :=
  match pyFloat? (getenvD env "NEST_MARKER_SIZE_M" "0.040") with
  | some q => Except.ok q
  | none => Except.error "could not convert string to float"

/-- The radio-mode URI resolution (src/config/__init__.py lines 91-98):
a falsy channel raises; a channel resolving to an empty URI raises unless
dry-run; otherwise the stripped URI (or None) is the result. -/
def radioUriStep (env : String → Option String) (mode : String) (dry_run : Bool)
    (channel : Option String) : Except String (Option String) :=
  if mode == "radio" then
    match channel with
    | none => Except.error "mode=radio requires channel"
    | some ch =>
      if ch == "" then Except.error "mode=radio requires channel" else
      let u := radioUri env ch
      let u1 : Option String := if u == "" then none else some u
      if !dry_run && u1.isNone then
        Except.error ("No URI configured for channel=" ++ ch)
      else Except.ok u1
  else Except.ok none

/-- The udp-mode URI resolution (src/config/__init__.py lines 101-104):
an empty CF_URI_UDP raises unless dry-run. -/
def udpUriStep (env : String → Option String) (mode : String) (dry_run : Bool)
    (uri1 : Option String) : Except String (Option String) :=
  if mode == "udp" then
    let u := pyStrip (getenvD env "CF_URI_UDP" "")
    let u1 : Option String := if u == "" then none else some u
    if !dry_run && u1.isNone then
      Except.error "No CF_URI_UDP configured for udp mode."
    else Except.ok u1
  else Except.ok uri1

/-- Embedding of `load_settings_from_env` (src/config/__init__.py lines
25-115).  `root` stands for `_project_root()`, `env` for the process
environment after `load_dotenv()`.  `Except.error` models a raise, and the
fallible steps run in source order (camera index, marker size, radio URI,
udp URI); note there is no validation step for swarm channels. -/
def load_settings_from_env (root : FsPath) (env : String → Option String)
    (mode : String) (dry_run : Bool) (channel : Option String)
    (channels : Option (List String)) (vision control waypoints : Bool)
    (log_level : Option String) : Except String Settings :=
  let logs_dir := pathOfStr (getenvD env "NEST_LOGS_DIR" (pathStr ⟨root.parts ++ ["logs"]⟩))
  let data_dir := pathOfStr (getenvD env "NEST_DATA_DIR" (pathStr ⟨root.parts ++ ["data"]⟩))
  let cache_dir := pathOfStr (getenvD env "NEST_CACHE_DIR" (pathStr ⟨root.parts ++ ["cache"]⟩))
  let ll0 : Option String := match log_level with
    | some l => if l == "" then none else some l
    | none => none
  let runS : RunSettings :=
    ⟨root, logs_dir, data_dir, cache_dir, pyUpper (ll0.getD (getenvD env "NEST_LOG_LEVEL" "INFO"))⟩
  let radio : RadioSettings := ⟨uriByChannelOf env⟩
  let swarm : SwarmSettings := ⟨mode == "swarm", if mode == "swarm" then channels else none⟩
  match camIndexStep env with
  | Except.error m => Except.error m
  | Except.ok camera_index =>
    let cam_url := pyStrip (getenvD env "NEST_CAMERA_URL" "")
    let camera_url := if cam_url == "" then none else some cam_url
    match markerStep env with
    | Except.error m => Except.error m
    | Except.ok marker_size_m =>
      let vision_settings : VisionSettings :=
        ⟨vision, control, camera_index, camera_url
        , getenvD env "NEST_ARUCO_DICT" "DICT_4X4_50", marker_size_m
        , !(["0", "false", "False"].contains (getenvD env "NEST_VISION_SHOW_WINDOW" "1"))⟩
      let features : FeatureFlags := ⟨waypoints⟩
      match radioUriStep env mode dry_run channel with
      | Except.error m => Except.error m
      | Except.ok uri1 =>
        match udpUriStep env mode dry_run uri1 with
        | Except.error m => Except.error m
        | Except.ok uri2 =>
          Except.ok ⟨mode, dry_run, runS, radio, swarm, vision_settings, features, uri2⟩

/-- The backward-compat trailing tokens recognized by the CLI
(`_EXTRA_TOKENS` in src/cli/main.py). -/
def EXTRA_TOKENS : List String :=
  ["vision", "control", "waypoint", "waypoints"]

/-- Embedding of `_parse_extras` (src/cli/main.py lines 28-41): lowercase
the tokens, read off the three flags, and raise when `control` appears
without `vision`. -/
def parseExtras (extras : List String) : Except String (Bool × Bool × Bool) :=
  let s := extras.map pyLower
  let vision := s.contains "vision"
  let control := s.contains "control"
  let waypoints := s.contains "waypoint" || s.contains "waypoints"
  if control && !vision then
    Except.error "`control` requires `vision` (click-to-go needs vision)."
  else Except.ok (vision, control, waypoints)

/-- The values argparse delivers to `parse_args` (src/cli/main.py line 82):
one namespace with the per-subparser attributes.  `channel` is only
meaningful for mode "radio" and `channels` for mode "swarm"; argparse
guarantees their presence there. -/
structure Ns where
  mode : String
  dry_run : Bool
  log_level : Option String
  vision : Bool
  control : Bool
  waypoints : Bool
  channel : String
  channels : List String
  extras : List String
deriving DecidableEq

/-- The CliArgs dataclass from src/cli/main.py. -/
structure CliArgs where
  mode : String
  channel : Option String
  channels : Option (List String)
  vision : Bool
  control : Bool
  waypoints : Bool
  dry_run : Bool
  log_level : Option String
deriving DecidableEq

/-- Embedding of the validation and dispatch part of `parse_args`
(src/cli/main.py lines 84-125), starting from the argparse namespace:
filter the trailing tokens to the known ones, run `_parse_extras` on them
when nonempty, merge flags with tokens, reject control-without-vision, and
build the CliArgs for the mode.  `Except.error` models both the ValueError
and the SystemExit raises. -/
def parse_args (ns : Ns) : Except String CliArgs :=
  let token_extras := ns.extras.filter (fun e => EXTRA_TOKENS.contains (pyLower e))
  match (if token_extras.isEmpty then Except.ok (false, false, false)
         else parseExtras token_extras) with
  | Except.error m => Except.error m
  | Except.ok (token_vision, token_control, token_waypoints) =>
    let vision := ns.vision || token_vision
    let control := ns.control || token_control
    let waypoints := ns.waypoints || token_waypoints
    if control && !vision then
      Except.error "Error: --control requires --vision (click-to-go needs vision)."
    else if ns.mode == "udp" then
      Except.ok ⟨"udp", none, none, vision, control, waypoints, ns.dry_run, ns.log_level⟩
    else if ns.mode == "radio" then
      Except.ok ⟨"radio", some ns.channel, none, vision, control, waypoints,
                 ns.dry_run, ns.log_level⟩
    else if ns.mode == "swarm" then
      Except.ok ⟨"swarm", none, some ns.channels, vision, control, waypoints,
                 ns.dry_run, ns.log_level⟩
    else Except.error ("Unknown mode: " ++ ns.mode)

/-- A copy of the environment in which every teardown operation returns
normally; the is-alive probe and all pre-teardown outcomes are kept. -/
def tearOkEnv (env : ExtEnv) : ExtEnv :=
  ⟨env.snapshotOk, env.connOk, env.logsOk, env.swarmOk, env.detOk, env.startOk,
   env.cmdOk, env.setDetOk, env.runOk, true, env.threadAlive, true, true, true, true⟩

theorem decStrList_map (l : List String) : decStrList (l.map Json.str) = some l := by
  induction l with
  | nil => rfl
  | cons a t ih => simp [decStrList, ih]

theorem decStrPairs_map (l : List (String × String)) :
    decStrPairs (l.map (fun kv => (kv.1, Json.str kv.2))) = some l := by
  induction l with
  | nil => rfl
  | cons a t ih => simp [decStrPairs, ih]

theorem decode_safeAsdict (s : Settings) : decodeDump (safeAsdict s) = some (dumpOf s) := by
  obtain ⟨mode, dry, rn, rd, sw, vs, ft, uri⟩ := s
  obtain ⟨pr, ld, dd, cd, ll⟩ := rn
  obtain ⟨ub⟩ := rd
  obtain ⟨se, ch⟩ := sw
  obtain ⟨ve, ce, ci, cu, adn, ms, swin⟩ := vs
  obtain ⟨wp⟩ := ft
  cases ch <;> cases ci <;> cases cu <;> cases uri <;>
    simp [safeAsdict, decodeDump, dumpOf, optStrJson, optIntJson, optStrListJson,
          decOptStr, decOptInt, decOptStrList, decStrPairs_map, decStrList_map,
          decRunDump, decRadio, decSwarm, decVision, decFeatures]

theorem read_writeSettingsSnapshot (s : Settings) (d : FsPath) (fs : FS) :
    (writeSettingsSnapshot s d fs).read (d.parts ++ ["settings.json"]) = some (safeAsdict s) := by
  simp [writeSettingsSnapshot, writeFile, mkdirParents, FS.read, List.find?]

theorem dirs_writeSettingsSnapshot (s : Settings) (d : FsPath) (fs : FS) (n : Nat)
    (hn : n < d.parts.length) :
    d.parts.take (n + 1) ∈ (writeSettingsSnapshot s d fs).dirs := by
  simp only [writeSettingsSnapshot, writeFile, mkdirParents]
  exact List.mem_append_left _ (List.mem_map.2 ⟨n, List.mem_range.2 hn, rfl⟩)

/-- Success flag of the constructor invoked at step k of the fixed
initialization order: connection, log reader, swarm controller, detector,
loop controller. -/
def constructorOk (env : ExtEnv) : Nat → Bool
  | 0 => env.connOk
  | 1 => env.logsOk
  | 2 => env.swarmOk
  | 3 => env.detOk
  | _ => env.cmdOk

/-- Whether step k of the fixed initialization order runs for the given
settings: the swarm controller only in swarm mode, the detector only when
vision is enabled. -/
def stepActive (s : Settings) : Nat → Bool
  | 2 => s.mode == "swarm"
  | 3 => s.vision.enabled
  | _ => true

/-- The construction events of the steps strictly before step k, in the
fixed initialization order, restricted to the steps active for `s`. -/
def initTraceUpto (s : Settings) (k : Nat) : List Ev :=
  (if 1 ≤ k then [Ev.connC] else [])
    ++ (if 2 ≤ k then [Ev.logsC] else [])
    ++ (if 3 ≤ k ∧ s.mode = "swarm" then [Ev.swarmC] else [])
    ++ (if 4 ≤ k ∧ s.vision.enabled = true then [Ev.detC, Ev.threadStart] else [])

/-- The shutdown attempts expected for exactly the handles built at steps
strictly before k, in the fixed teardown order, absent handles skipped. -/
def teardownExpected (s : Settings) (k : Nat) : List Ev :=
  (if 4 ≤ k ∧ s.vision.enabled = true then [Ev.stopCall, Ev.joinCall] else [])
    ++ (if 3 ≤ k ∧ s.mode = "swarm" then [Ev.swarmClose] else [])
    ++ (if 2 ≤ k then [Ev.logsClose] else [])
    ++ (if 1 ≤ k then [Ev.droneClose] else [])

/-- All pre-teardown external calls return normally. -/
def allInitOk (env : ExtEnv) : Bool :=
  env.connOk && env.logsOk && env.swarmOk && env.detOk && env.startOk
    && env.cmdOk && env.setDetOk && env.runOk

/-- An empty filesystem. -/
def fsEmpty : FS := ⟨[], []⟩

/-- A concrete run-settings block for sample configurations. -/
def sampleRunSettings : RunSettings :=
  ⟨⟨["nest"]⟩, ⟨["nest", "logs"]⟩, ⟨["nest", "data"]⟩, ⟨["nest", "cache"]⟩, "INFO"⟩

/-- A concrete non-dry swarm-mode configuration with vision enabled. -/
def sampleSwarmSettings : Settings :=
  ⟨"swarm", false, sampleRunSettings
  , ⟨[("7", "radio7"), ("8", "radio8"), ("9", "radio9")]⟩
  , ⟨true, some ["7", "8", "9"]⟩
  , ⟨true, false, none, none, "DICT_4X4_50", 1/25, true⟩
  , ⟨false⟩, none⟩

/-- A concrete dry-run radio-mode configuration. -/
def sampleDrySettings : Settings :=
  ⟨"radio", true, sampleRunSettings
  , ⟨[("7", "radio7"), ("8", "radio8"), ("9", "radio9")]⟩
  , ⟨false, none⟩
  , ⟨false, false, none, none, "DICT_4X4_50", 1/25, true⟩
  , ⟨false⟩, some "radio7"⟩

/-- An environment in which every external call returns normally. -/
def envAllOk : ExtEnv :=
  ⟨true, true, true, true, true, true, true, true, true, true, true, true, true, true, true⟩

/-- Every call returns normally except the detector stop signal, which
raises; the detector thread is alive at teardown. -/
def envStopFail : ExtEnv :=
  ⟨true, true, true, true, true, true, true, true, true, false, true, true, true, true, true⟩

/-- Every call returns normally except the settings-snapshot write. -/
def envSnapFail : ExtEnv :=
  ⟨false, true, true, true, true, true, true, true, true, true, true, true, true, true, true⟩

/-- Every call returns normally except the DetectorRT constructor. -/
def envDetFail : ExtEnv :=
  ⟨true, true, true, true, false, true, true, true, true, true, true, true, true, true, true⟩

/-- A process environment with no variables set. -/
def envEmpty : String → Option String := fun _ => none

/-- A concrete project root. -/
def root0 : FsPath := ⟨["nest"]⟩

theorem filterTokens_sub {e : String} {l : List String}
    (h : e ∈ l.filter (fun x => EXTRA_TOKENS.contains (pyLower x))) : e ∈ l :=
  (List.mem_filter.1 h).1

theorem noVisionToken {l : List String} (hv : ∀ e ∈ l, pyLower e ≠ "vision") :
    ((l.filter (fun x => EXTRA_TOKENS.contains (pyLower x))).map
      pyLower).contains "vision" = false := by
  rw [Bool.eq_false_iff]
  intro hcon
  rw [List.elem_iff] at hcon
  obtain ⟨e2, he2, hel2⟩ := List.mem_map.1 hcon
  exact hv e2 (filterTokens_sub he2) hel2

theorem parseExtras_ok_vision {l : List String} {tv tc tw : Bool}
    (h : parseExtras l = Except.ok (tv, tc, tw)) :
    tv = (l.map pyLower).contains "vision" := by
  simp only [parseExtras] at h
  split at h
  · cases h
  · cases h
    rfl

theorem controlToken_raises {ns : Ns}
    (hc : ∃ e ∈ ns.extras, pyLower e = "control")
    (hv : ∀ e ∈ ns.extras, pyLower e ≠ "vision") :
    (parse_args ns).isOk = false := by
  obtain ⟨e, he, hel⟩ := hc
  have hef : e ∈ ns.extras.filter (fun x => EXTRA_TOKENS.contains (pyLower x)) := by
    refine List.mem_filter.2 ⟨he, ?_⟩
    rw [hel]
    decide
  have hne : (ns.extras.filter (fun x => EXTRA_TOKENS.contains (pyLower x))).isEmpty = false := by
    rcases hh : ns.extras.filter (fun x => EXTRA_TOKENS.contains (pyLower x)) with _ | ⟨a, t⟩
    · rw [hh] at hef
      simp at hef
    · rfl
  have hctl : ((ns.extras.filter (fun x => EXTRA_TOKENS.contains (pyLower x))).map
      pyLower).contains "control" = true := by
    rw [List.elem_iff]
    exact List.mem_map.2 ⟨e, hef, hel⟩
  have hpe : parseExtras (ns.extras.filter (fun x => EXTRA_TOKENS.contains (pyLower x)))
      = Except.error "`control` requires `vision` (click-to-go needs vision)." := by
    simp only [parseExtras, hctl, noVisionToken hv]
    rfl
  simp only [parse_args, hne, hpe, Bool.false_eq_true, if_false]
  rfl

/-- C1 counterexample: with the detector and its thread present and alive,
an exception raised by `detector.stop()` prevents the join of the detector
thread — the join call never appears in the trace — because lines 130-136
of src/core/runner.py wrap stop and join in the same try block.  The later
close steps still run. -/
theorem c1_counterexample :
    Ev.stopCall ∈ (run sampleSwarmSettings envStopFail fsEmpty).trace
    ∧ Ev.joinCall ∉ (run sampleSwarmSettings envStopFail fsEmpty).trace
    ∧ (initPhase sampleSwarmSettings envStopFail).1.detectorThread = true
    ∧ envStopFail.threadAlive = true := by
  decide

/-- C1 (amended): the teardown phase of `run` consists of four independently
wrapped blocks — the vision block (stop signal and bounded join together),
swarm controller close, log reader close, connection close — each attempted
for present handles regardless of exceptions in earlier blocks; within the
vision block an exception from the stop signal does skip the join, so the
join is attempted exactly when the thread handle is present and alive and
either no detector is present or its stop signal returned normally. -/
theorem c1_teardown_block_independence (h : Handles) (env : ExtEnv) :
    ((Ev.stopCall ∈ teardownPhase h env) ↔ h.detector = true)
    ∧ ((Ev.joinCall ∈ teardownPhase h env) ↔
        (h.detectorThread = true ∧ env.threadAlive = true
          ∧ (h.detector = false ∨ env.stopOk = true)))
    ∧ ((Ev.swarmClose ∈ teardownPhase h env) ↔ h.swarm = true)
    ∧ ((Ev.logsClose ∈ teardownPhase h env) ↔ h.droneLogs = true)
    ∧ ((Ev.droneClose ∈ teardownPhase h env) ↔ h.drone = true) := by
  obtain ⟨dr, lg, sw, det, dth⟩ := h
  cases dr <;> cases lg <;> cases sw <;> cases det <;> cases dth <;>
    cases hstp : env.stopOk <;> cases hal : env.threadAlive <;>
    simp [teardownPhase, visionShutdown, hstp, hal]

/-- C2 counterexample: when the settings-snapshot write raises, the
exception escapes `run` (the write at line 55 of src/core/runner.py sits
before the try block), so `run` does not convert it to a return value. -/
theorem c2_counterexample :
    (run sampleSwarmSettings envSnapFail fsEmpty).ret = Except.error () := by
  rfl

/-- C2 (amended): whenever the settings-snapshot write returns normally,
`run` never lets an exception escape: any failure in subsystem
initialization or the interactive loop is caught at the orchestrator
boundary and `run` returns 0 or 1; a snapshot-write failure, however,
propagates out of `run`. -/
theorem c2_no_escape_after_snapshot (s : Settings) (env : ExtEnv) (fs0 : FS)
    (hs : env.snapshotOk = true) :
    (run s env fs0).ret = Except.ok 0 ∨ (run s env fs0).ret = Except.ok 1 := by
  simp only [run, hs]
  rcases hip : initPhase s env with ⟨h, itr, ok⟩
  by_cases hd : s.dry_run <;> by_cases hok : ok <;> simp [hd, hip, hok]

/-- Witness for C2 at a concrete configuration and environment. -/
theorem c2_witness :
    envAllOk.snapshotOk = true
    ∧ ((run sampleSwarmSettings envAllOk fsEmpty).ret = Except.ok 0
      ∨ (run sampleSwarmSettings envAllOk fsEmpty).ret = Except.ok 1) :=
  ⟨rfl, c2_no_escape_after_snapshot sampleSwarmSettings envAllOk fsEmpty rfl⟩

/-- C3: for a non-dry run whose snapshot write succeeds, if the constructor
at active step k of the fixed order (connection, log reader, swarm
controller, detector, loop controller) raises while all earlier
constructors returned normally (and the thread start and the teardown
operations return normally, the thread being alive), then `run` returns 1
and the trace is exactly the constructions of the steps before k followed
by the shutdown attempts of exactly those handles, in the fixed teardown
order, absent handles silently skipped. -/
theorem c3_partial_init_teardown (s : Settings) (env : ExtEnv) (fs0 : FS) (k : Nat)
    (hk : k < 5)
    (hd : s.dry_run = false) (hs : env.snapshotOk = true)
    (hact : stepActive s k = true)
    (hfail : constructorOk env k = false)
    (hprev : ∀ j, j < k → constructorOk env j = true)
    (hstart : env.startOk = true)
    (hstop : env.stopOk = true) (hal : env.threadAlive = true) :
    (run s env fs0).ret = Except.ok 1
    ∧ (run s env fs0).trace
      = Ev.snapshotEv :: (initTraceUpto s k ++ teardownExpected s k) := by
  interval_cases k
  · simp only [constructorOk] at hfail
    constructor <;>
      simp [run, hs, hd, initPhase, teardownPhase, visionShutdown, hfail,
            initTraceUpto, teardownExpected]
  · have h0 : env.connOk = true := hprev 0 (by norm_num)
    simp only [constructorOk] at hfail
    constructor <;>
      simp [run, hs, hd, initPhase, teardownPhase, visionShutdown, hfail, h0,
            initTraceUpto, teardownExpected]
  · have h0 : env.connOk = true := hprev 0 (by norm_num)
    have h1 : env.logsOk = true := hprev 1 (by norm_num)
    simp only [constructorOk] at hfail
    simp only [stepActive] at hact
    constructor <;>
      simp [run, hs, hd, initPhase, teardownPhase, visionShutdown, hfail, h0, h1, hact,
            initTraceUpto, teardownExpected, beq_iff_eq]
  · have h0 : env.connOk = true := hprev 0 (by norm_num)
    have h1 : env.logsOk = true := hprev 1 (by norm_num)
    have h2 : env.swarmOk = true := hprev 2 (by norm_num)
    simp only [constructorOk] at hfail
    simp only [stepActive] at hact
    by_cases hm : s.mode = "swarm" <;>
      constructor <;>
      simp [run, hs, hd, initPhase, initVision, teardownPhase, visionShutdown,
            hfail, h0, h1, h2, hact, hm, initTraceUpto, teardownExpected, beq_iff_eq]
  · have h0 : env.connOk = true := hprev 0 (by norm_num)
    have h1 : env.logsOk = true := hprev 1 (by norm_num)
    have h2 : env.swarmOk = true := hprev 2 (by norm_num)
    have h3 : env.detOk = true := hprev 3 (by norm_num)
    simp only [constructorOk] at hfail
    by_cases hm : s.mode = "swarm" <;> by_cases hv : s.vision.enabled = true <;>
      constructor <;>
      simp [run, hs, hd, initPhase, initVision, initCmd, teardownPhase, visionShutdown,
            hfail, h0, h1, h2, h3, hstart, hstop, hal, hm, hv,
            initTraceUpto, teardownExpected, beq_iff_eq]

/-- Witness for C3: the spec scenario — swarm mode, vision enabled, the
detector constructor raises at step 3 — yields return 1 and teardown of
exactly the connection, log reader and swarm controller. -/
theorem c3_witness :
    stepActive sampleSwarmSettings 3 = true
    ∧ ((run sampleSwarmSettings envDetFail fsEmpty).ret = Except.ok 1
      ∧ (run sampleSwarmSettings envDetFail fsEmpty).trace
        = Ev.snapshotEv :: (initTraceUpto sampleSwarmSettings 3
            ++ teardownExpected sampleSwarmSettings 3)) :=
  ⟨by decide
  , c3_partial_init_teardown sampleSwarmSettings envDetFail fsEmpty 3
      (by decide) (by decide) (by decide) (by decide) (by decide)
      (by decide) (by decide) (by decide) (by decide)⟩

/-- C4: for every dry-run configuration whose snapshot write returns
normally, `run` returns 0 and its trace holds only the snapshot event — no
subsystem constructor is invoked and no teardown is performed. -/
theorem c4_dry_run_no_subsystems (s : Settings) (env : ExtEnv) (fs0 : FS)
    (hd : s.dry_run = true) (hs : env.snapshotOk = true) :
    (run s env fs0).ret = Except.ok 0 ∧ (run s env fs0).trace = [Ev.snapshotEv] := by
  simp [run, hd, hs]

/-- Witness for C4 at a concrete dry-run configuration. -/
theorem c4_witness :
    sampleDrySettings.dry_run = true
    ∧ ((run sampleDrySettings envAllOk fsEmpty).ret = Except.ok 0
      ∧ (run sampleDrySettings envAllOk fsEmpty).trace = [Ev.snapshotEv]) :=
  ⟨rfl, c4_dry_run_no_subsystems sampleDrySettings envAllOk fsEmpty rfl rfl⟩

/-- C5: the value `run` returns is unchanged if every teardown operation is
replaced by one that returns normally — teardown outcomes (stop, join,
and the three closes raising or not) never influence the returned code. -/
theorem c5_outcome_independent_of_teardown (s : Settings) (env : ExtEnv) (fs0 : FS) :
    (run s env fs0).ret = (run s (tearOkEnv env) fs0).ret := by
  obtain ⟨sn, c, l, sw, d, st, cm, sd, r, stp, ta, j, sc, lc, dc⟩ := env
  cases sn with
  | false => rfl
  | true =>
    rcases hip : initPhase s ⟨true, c, l, sw, d, st, cm, sd, r, stp, ta, j, sc, lc, dc⟩
      with ⟨h, itr, ok⟩
    have hA : initPhase s ⟨true, c, l, sw, d, st, cm, sd, r, true, ta, true, true, true, true⟩
        = (h, itr, ok) := hip
    by_cases hd : s.dry_run <;> simp [run, tearOkEnv, hip, hA, hd]

/-- C6: whenever the snapshot write returns normally, `run` (dry or not)
leaves `settings.json` in the configured logs directory holding exactly the
`_safe_asdict` rendering of the settings, for any prior filesystem content
(overwrite); the logs directory and each ancestor exists afterwards; the
snapshot event is the first event of the trace, before any subsystem
construction; and the written value, parsed back, reproduces every field of
the settings with paths rendered as strings. -/
theorem c6_snapshot_roundtrip (s : Settings) (env : ExtEnv) (fs0 : FS)
    (hs : env.snapshotOk = true) :
    (run s env fs0).fs.read (snapPath s) = some (safeAsdict s)
    ∧ (∀ n, n < s.run.logs_dir.parts.length →
        s.run.logs_dir.parts.take (n + 1) ∈ (run s env fs0).fs.dirs)
    ∧ (run s env fs0).trace.head? = some Ev.snapshotEv
    ∧ decodeDump (safeAsdict s) = some (dumpOf s) := by
  have hfs : (run s env fs0).fs = writeSettingsSnapshot s s.run.logs_dir fs0 := by
    simp only [run, hs]
    rcases hip : initPhase s env with ⟨h, itr, ok⟩
    by_cases hd : s.dry_run <;> simp [hd, hip]
  have htr : (run s env fs0).trace.head? = some Ev.snapshotEv := by
    simp only [run, hs]
    rcases hip : initPhase s env with ⟨h, itr, ok⟩
    by_cases hd : s.dry_run <;> simp [hd, hip]
  refine ⟨?_, ?_, htr, decode_safeAsdict s⟩
  · rw [hfs, snapPath]
    exact read_writeSettingsSnapshot s s.run.logs_dir fs0
  · intro n hn
    rw [hfs]
    exact dirs_writeSettingsSnapshot s s.run.logs_dir fs0 n hn

/-- Witness for C6 at a concrete configuration. -/
theorem c6_witness :
    envAllOk.snapshotOk = true
    ∧ ((run sampleSwarmSettings envAllOk fsEmpty).fs.read (snapPath sampleSwarmSettings)
        = some (safeAsdict sampleSwarmSettings)
      ∧ (∀ n, n < sampleSwarmSettings.run.logs_dir.parts.length →
          sampleSwarmSettings.run.logs_dir.parts.take (n + 1)
            ∈ (run sampleSwarmSettings envAllOk fsEmpty).fs.dirs)
      ∧ (run sampleSwarmSettings envAllOk fsEmpty).trace.head? = some Ev.snapshotEv
      ∧ decodeDump (safeAsdict sampleSwarmSettings) = some (dumpOf sampleSwarmSettings)) :=
  ⟨rfl, c6_snapshot_roundtrip sampleSwarmSettings envAllOk fsEmpty rfl⟩

/-- C7 counterexample: in swarm mode `load_settings_from_env` performs no
validation of the channel list — called non-dry with no channels at all it
returns a Settings value whose connection target is empty instead of
raising. -/
theorem c7_counterexample :
    (load_settings_from_env root0 envEmpty "swarm" false none none
      false false false none).isOk = true
    ∧ (load_settings_from_env root0 envEmpty "swarm" false none none
        false false false none).toOption.map
          (fun s => (s.mode, s.dry_run, s.swarm.channels, s.uri))
      = some ("swarm", false, none, none) := by
  decide

set_option maxHeartbeats 1000000 in
/-- C7 (amended): for udp and radio modes, `load_settings_from_env` raises
whenever dry-run is off and the session lacks a resolvable non-empty
connection target (empty CF_URI_UDP for udp; for radio, a missing or empty
channel or a channel whose configured URI strips to empty); swarm mode gets
no such check, so only udp and radio configurations are protected. -/
theorem c7_connection_target_validation (root : FsPath) (env : String → Option String)
    (mode : String) (dry_run : Bool) (channel : Option String)
    (channels : Option (List String)) (v c w : Bool) (ll : Option String) :
    ((mode = "udp" → dry_run = false → pyStrip (getenvD env "CF_URI_UDP" "") = "" →
      (load_settings_from_env root env mode dry_run channel channels v c w ll).isOk = false)
    ∧ (mode = "radio" → dry_run = false →
        (∀ ch, channel = some ch → radioUri env ch = "") →
      (load_settings_from_env root env mode dry_run channel channels v c w ll).isOk
        = false)) := by
  constructor
  · intro hm hd hu
    subst hm
    subst hd
    rcases hci : camIndexStep env with m | ci
    · simp only [load_settings_from_env, hci]
      rfl
    · rcases hms : markerStep env with m | ms
      · simp only [load_settings_from_env, hci, hms]
        rfl
      · rcases hr : radioUriStep env "udp" false channel with m | u1
        · simp only [load_settings_from_env, hci, hms, hr]
          rfl
        · have hu2 : udpUriStep env "udp" false u1
              = Except.error "No CF_URI_UDP configured for udp mode." := by
            simp [udpUriStep, hu]
          simp only [load_settings_from_env, hci, hms, hr, hu2]
          rfl
  · intro hm hd hch
    subst hm
    subst hd
    rcases hci : camIndexStep env with m | ci
    · simp only [load_settings_from_env, hci]
      rfl
    · rcases hms : markerStep env with m | ms
      · simp only [load_settings_from_env, hci, hms]
        rfl
      · rcases hr : radioUriStep env "radio" false channel with m | u1
        · simp only [load_settings_from_env, hci, hms, hr]
          rfl
        · exfalso
          rcases channel with _ | ch
          · simp [radioUriStep] at hr
          · by_cases hch0 : ch = ""
            · simp [radioUriStep, hch0] at hr
            · have hres := hch ch rfl
              simp [radioUriStep, hch0, hres] at hr

/-- Witness for C7 at a concrete udp call with CF_URI_UDP unset. -/
theorem c7_witness :
    pyStrip (getenvD envEmpty "CF_URI_UDP" "") = ""
    ∧ (load_settings_from_env root0 envEmpty "udp" false none none
        false false false none).isOk = false :=
  ⟨rfl, (c7_connection_target_validation root0 envEmpty "udp" false none none
      false false false none).1 rfl rfl rfl⟩

/-- C8: whenever control is requested, by flag or trailing token, and vision
is requested by neither flag nor token, `parse_args` raises; consequently
every CliArgs it returns satisfies control implies vision. -/
theorem c8_control_requires_vision (ns : Ns) :
    ((ns.control = true ∨ ∃ e ∈ ns.extras, pyLower e = "control") →
      ns.vision = false → (∀ e ∈ ns.extras, pyLower e ≠ "vision") →
      (parse_args ns).isOk = false)
    ∧ (∀ a, parse_args ns = Except.ok a → a.control = true → a.vision = true) := by
  constructor
  · intro hc hv1 hv2
    rcases hc with hflag | htok
    · rcases hres : (if (ns.extras.filter (fun e => EXTRA_TOKENS.contains (pyLower e))).isEmpty
          then Except.ok ((false, false, false) : Bool × Bool × Bool)
          else parseExtras (ns.extras.filter (fun e => EXTRA_TOKENS.contains (pyLower e))))
        with _ | ⟨tv, tc, tw⟩
      · simp only [parse_args, hres]
        rfl
      · have htv : tv = false := by
          by_cases hemp :
              (ns.extras.filter (fun e => EXTRA_TOKENS.contains (pyLower e))).isEmpty = true
          · rw [if_pos hemp] at hres
            cases hres
            rfl
          · rw [if_neg hemp] at hres
            rw [parseExtras_ok_vision hres]
            have hvt : ∀ e ∈ ns.extras.filter (fun x => EXTRA_TOKENS.contains (pyLower x)),
                pyLower e ≠ "vision" := fun e hef => hv2 e (filterTokens_sub hef)
            rw [Bool.eq_false_iff]
            intro hcon
            rw [List.elem_iff] at hcon
            obtain ⟨e2, he2, hel2⟩ := List.mem_map.1 hcon
            exact hvt e2 he2 hel2
        simp only [parse_args, hres, hflag, hv1, htv]
        rfl
    · exact controlToken_raises htok hv2
  · intro a ha hac
    rcases hres : (if (ns.extras.filter (fun e => EXTRA_TOKENS.contains (pyLower e))).isEmpty
        then Except.ok ((false, false, false) : Bool × Bool × Bool)
        else parseExtras (ns.extras.filter (fun e => EXTRA_TOKENS.contains (pyLower e))))
      with _ | ⟨tv, tc, tw⟩
    · simp only [parse_args, hres] at ha
      cases ha
    · simp only [parse_args, hres] at ha
      split_ifs at ha with h1 h2 h3 h4
      all_goals
        cases ha
        have hac2 : (ns.control || tc) = true := hac
        rw [hac2] at h1
        simp only [Bool.true_and, Bool.not_eq_true', Bool.not_eq_false] at h1
        exact h1

/-- An argparse namespace with the control flag set and vision requested by
neither flag nor token. -/
def nsCtrlSample : Ns := ⟨"udp", false, none, false, true, false, "", [], []⟩

/-- Witness for C8 at that namespace. -/
theorem c8_witness :
    nsCtrlSample.control = true ∧ nsCtrlSample.vision = false
    ∧ (parse_args nsCtrlSample).isOk = false :=
  ⟨rfl, rfl, (c8_control_requires_vision nsCtrlSample).1 (Or.inl rfl) rfl (by decide)⟩

/-- C9: for every non-dry configuration whose external calls all return
normally, the trace of `run` begins with the snapshot, then the vehicle
connection, then the log reader (after the connection is live), then the
swarm controller exactly in swarm mode, then — exactly when vision is
enabled — the detector followed by its thread start, then the loop
controller, then the detector registration (only after the loop controller
exists, and exactly when vision is enabled), then the blocking loop. -/
theorem c9_initialization_order (s : Settings) (env : ExtEnv) (fs0 : FS)
    (hd : s.dry_run = false) (hs : env.snapshotOk = true)
    (hok : allInitOk env = true) :
    ∃ tail, (run s env fs0).trace =
      [Ev.snapshotEv, Ev.connC, Ev.logsC]
        ++ (if s.mode = "swarm" then [Ev.swarmC] else [])
        ++ (if s.vision.enabled = true then [Ev.detC, Ev.threadStart] else [])
        ++ [Ev.cmdC]
        ++ (if s.vision.enabled = true then [Ev.setDet] else [])
        ++ [Ev.loopRun] ++ tail := by
  simp only [allInitOk, Bool.and_eq_true] at hok
  obtain ⟨⟨⟨⟨⟨⟨⟨hc, hl⟩, hw⟩, hdet⟩, hst⟩, hcm⟩, hsd⟩, hr⟩ := hok
  by_cases hm : s.mode = "swarm" <;> by_cases hv : s.vision.enabled = true
  · exact ⟨teardownPhase ⟨true, true, true, true, true⟩ env, by
      simp [run, hs, hd, initPhase, initVision, initCmd, hc, hl, hw, hdet, hst,
            hcm, hsd, hr, hm, hv, beq_iff_eq]⟩
  · exact ⟨teardownPhase ⟨true, true, true, false, false⟩ env, by
      simp [run, hs, hd, initPhase, initVision, initCmd, hc, hl, hw, hdet, hst,
            hcm, hsd, hr, hm, hv, beq_iff_eq]⟩
  · exact ⟨teardownPhase ⟨true, true, false, true, true⟩ env, by
      simp [run, hs, hd, initPhase, initVision, initCmd, hc, hl, hw, hdet, hst,
            hcm, hsd, hr, hm, hv, beq_iff_eq]⟩
  · exact ⟨teardownPhase ⟨true, true, false, false, false⟩ env, by
      simp [run, hs, hd, initPhase, initVision, initCmd, hc, hl, hw, hdet, hst,
            hcm, hsd, hr, hm, hv, beq_iff_eq]⟩

/-- Witness for C9 at a concrete swarm-mode vision-enabled configuration. -/
theorem c9_witness :
    allInitOk envAllOk = true
    ∧ ∃ tail, (run sampleSwarmSettings envAllOk fsEmpty).trace =
      [Ev.snapshotEv, Ev.connC, Ev.logsC]
        ++ (if sampleSwarmSettings.mode = "swarm" then [Ev.swarmC] else [])
        ++ (if sampleSwarmSettings.vision.enabled = true
            then [Ev.detC, Ev.threadStart] else [])
        ++ [Ev.cmdC]
        ++ (if sampleSwarmSettings.vision.enabled = true then [Ev.setDet] else [])
        ++ [Ev.loopRun] ++ tail :=
  ⟨rfl, c9_initialization_order sampleSwarmSettings envAllOk fsEmpty rfl rfl rfl⟩

/-- C10: the backward-compat token check runs on the trailing tokens alone:
whenever they include `control` and no token lowering to `vision`,
`parse_args` raises — whatever the flags, in particular with the vision
flag set. -/
theorem c10_token_check_ignores_flags (ns : Ns)
    (hc : "control" ∈ ns.extras)
    (hv : ∀ e ∈ ns.extras, pyLower e ≠ "vision") :
    (parse_args ns).isOk = false :=
  controlToken_raises ⟨"control", hc, rfl⟩ hv

/-- An argparse namespace with the vision flag set and the single trailing
token `control`. -/
def nsTokSample : Ns := ⟨"udp", false, none, true, false, false, "", [], ["control"]⟩

/-- Witness for C10: the vision flag is set, yet the token check raises. -/
theorem c10_witness :
    nsTokSample.vision = true ∧ (parse_args nsTokSample).isOk = false :=
  ⟨rfl, c10_token_check_ignores_flags nsTokSample (by decide) (by decide)⟩
